import Mathlib

/-!
Shallow embedding of the 2PC transaction-manager core of glennga/tippers-commit.

Each Lean definition below is translated from one Python definition of the
repository; the file and line of the source are named in the doc comment.
External services (the RM connection, sockets, the thread pool) are modelled
by explicit oracle parameters; durable stores (the sqlite WAL and protocol
database) are modelled as explicit lists of rows carried in the state.
Python exceptions that a modelled function can raise are made explicit in an
`Option PyErr` field of the step output: effects performed before the raise
are kept, effects after it are not, matching sqlite's autocommit-off
connection that keeps already-executed statements of the session.
-/

/-- shared.py, class OpCode: operation codes of the wire protocol. -/
inductive OpCode
  | STOP
  | NO_OP
  | START_TRANSACTION
  | ABORT_TRANSACTION
  | COMMIT_TRANSACTION
  | INSERT_FROM_CLIENT
  | INITIATE_PARTICIPANT
  | INSERT_FROM_COORDINATOR
  | PREPARE_TO_COMMIT
  | COMMIT_FROM_COORDINATOR
  | ROLLBACK_FROM_COORDINATOR
  | TRANSACTION_STATUS
  | RECONNECT_PARTICIPANT
deriving DecidableEq, Repr

/-- shared.py, class ResponseCode: response codes of the wire protocol. -/
inductive ResponseCode
  | OK
  | FAIL
  | PREPARED_FROM_PARTICIPANT
  | ABORT_FROM_PARTICIPANT
  | ACKNOWLEDGE_END
  | TRANSACTION_COMMITTED
  | TRANSACTION_ABORTED
deriving DecidableEq, Repr

/-- The Python exception classes raised by the modelled code paths. -/
inductive PyErr
  | typeError
  | valueError
  | attributeError
  | indexError
deriving DecidableEq, Repr

namespace WriteAheadLogger

/-- recovery.py:186-194, `get_redo_for`: the `logged_action` column of the
`ACTION_LOG` rows of the transaction, in `rowid` (insertion) order. The
`ACTION_LOG` table is modelled as the list of its `(tr_id, logged_action)`
rows in insertion order. -/
def get_redo_for (action_log : List (String × String)) (transaction_id : String) : List String :=
  (action_log.filter fun r => r.1 == transaction_id).map Prod.snd

/-- recovery.py:196-202, `_get_table_name`: `statement.split("into")[1]`,
then `.split("values")[0]`, then `.replace(' ', "")`. Python raises
IndexError when "into" does not occur; the model returns the result of the
in-range accesses and `""` for the out-of-range index Python would refuse. -/
def _get_table_name (statement : String) : String :=
  ((((statement.splitOn "into").getD 1 "").splitOn "values").getD 0 "").replace " " ""

/-- recovery.py:204-208, `_get_insert_id`: `statement.split("(")[1]`, then
`.split(",")[0]`. Out-of-range indices are defaulted as in `_get_table_name`. -/
def _get_insert_id (statement : String) : String :=
  (((statement.splitOn "(").getD 1 "").splitOn ",").getD 0 ""

/-- recovery.py:210-213, `_get_inverse_statement`: the DELETE statement
inverting a logged INSERT. The source concatenates without a space before
WHERE; the model reproduces that byte-for-byte. -/
def _get_inverse_statement (statement : String) : String :=
  "DELETE FROM " ++ _get_table_name statement ++ "WHERE id = " ++ _get_insert_id statement ++ ";"

/-- recovery.py:215-217, `get_undo_for`: the redo statements reversed
(`[::-1]`, undo in reverse chronological order), each mapped through
`_get_inverse_statement`. -/
def get_undo_for (action_log : List (String × String)) (transaction_id : String) : List String :=
  ((get_redo_for action_log transaction_id).reverse).map _get_inverse_statement

end WriteAheadLogger

namespace ProtocolDatabase

/-- The state history of one transaction: the `state` column of the
`STATE_LOG` rows carrying its `tr_id`, in insertion (`rowid`) order. The
`STATE_LOG` table (protocol.py:28-33) is modelled as the list of its
`(tr_id, state)` rows in insertion order; each state is the single
character I, P, C, A or D written by the `log_...` methods. -/
def statesOf (state_log : List (String × Char)) (t : String) : List Char :=
  (state_log.filter fun r => r.1 == t).map Prod.snd

/-- sqlite's `GROUP_CONCAT(state)` over one group: the states joined by the
default separator, a comma, in insertion order (modelled at the character
level, each state being a single character). -/
def group_concat : List Char → List Char
  | [] => []
  | [c] => [c]
  | c :: d :: rest => c :: ',' :: group_concat (d :: rest)

/-- sqlite's `x LIKE '%c'` for a single character `c`: `%` matches any
prefix, so the pattern holds exactly when the last character of `x` is `c`.
(sqlite LIKE folds ASCII case, which is inert here: every state written by
protocol.py is one of the uppercase letters I, P, C, A, D and every pattern
character used is uppercase.) -/
def like_pct (s : List Char) (c : Char) : Bool :=
  s.getLast? == some c

/-- protocol.py:70-80, `get_abortable_transactions`: the `tr_id` groups of
`STATE_LOG` whose `GROUP_CONCAT(state)` is `NOT LIKE "%C"`, `NOT LIKE "%P"`
and `NOT LIKE "%A"`. Output order of a GROUP BY is unspecified by sqlite;
`List.dedup` of the row tids stands in for the group keys, and the theorems
below use only membership. -/
def get_abortable_transactions (state_log : List (String × Char)) : List String :=
  ((state_log.map Prod.fst).dedup).filter fun t =>
    let h := group_concat (statesOf state_log t)
    !(like_pct h 'C') && !(like_pct h 'P') && !(like_pct h 'A')

end ProtocolDatabase

namespace TransactionCoordinatorThread

/-- coordinate.py:19-29, class CoordinatorStates. (The first state is named
INITIALIZE in the source; it is shortened to INIT here.) -/
inductive CoordinatorStates
  | INIT
  | RECOVERY
  | ACTIVE
  | POLLING
  | ABORT
  | COMMIT
  | WAITING
  | FINISHED
deriving DecidableEq, Repr

/-- The per-thread coordinator state of coordinate.py: the `state`,
`previous_state`, `transaction_id` and `active_map` attributes, together
with the two WAL tables the thread appends to through
`recovery.WriteAheadLogger`. `active_map` holds the dict's keys (participant
node ids); the socket values are left abstract. -/
structure CoordSt where
  state : CoordinatorStates
  previous_state : Option CoordinatorStates
  transaction_id : String
  active_map : List Nat
  state_log : List (String × Char)
  action_log : List (String × String)
deriving DecidableEq, Repr

/-- The externally observable actions a coordinator state handler performs,
in program order. `rm_prepare` is listed for completeness: no modelled code
path ever emits it, because coordinate.py never calls an RM prepare. -/
inductive CoordEvent
  | rm_commit
  | rm_commit_failed
  | rm_prepare
  | rm_execute (statement : String)
  | wal_append (transaction_id : String) (state : Char)
  | wal_flush
deriving DecidableEq, Repr

/-- The outcome of running one coordinator state handler: the state after
the handler returned or raised, the events it performed in order, and the
exception it raised (`none` when it returned normally). Effects listed in
`events` and recorded in `st` happened before the raise. -/
structure StepOut where
  st : CoordSt
  events : List CoordEvent
  err : Option PyErr
deriving DecidableEq, Repr

/-- coordinate.py:327-343, `_final_multicast`: the loop header is
`for participant, participant_socket in self.active_map:`. Iterating a dict
yields its keys alone; each key is an int node id, and unpacking an int into
two names raises `TypeError: cannot unpack non-iterable int object` before
the body ever runs, so with a non-empty map nothing is sent and nobody is
removed. With an empty map the loop body never runs and the map stays empty. -/
def _final_multicast (_op_code : OpCode) (s : CoordSt) : StepOut :=
  if s.active_map.isEmpty then ⟨s, [], none⟩
  else ⟨s, [], some PyErr.typeError⟩

/-- The message read from the client channel in the coordinator's ACTIVE
state (communication.py `read_message` returns `None` on loss or timeout,
modelled by wrapping this type in `Option`). -/
inductive ClientMessage
  | INSERT_FROM_CLIENT (statement : String) (hash_input : Nat)
  | ABORT_TRANSACTION
  | COMMIT_TRANSACTION
  | unknown_op
deriving DecidableEq, Repr

/-- coordinate.py:153-191, `_active_state`. The outcome of
`self.conn.commit()` is the oracle `rm_commit_ok` and the outcome of
`_execute_statement` (whose routing internals no claim touches) is the
oracle `execute_ok`. On COMMIT_TRANSACTION the source commits the RM first
(line 177), then appends `C` through `wal.log_commit_of` and flushes (lines
180-181) and sets the state to POLLING (line 182) — with no test of
`active_map`; on an RM exception it appends `A` and moves to ABORT (lines
186-188). A null read moves to ABORT (lines 155-158). -/
def _active_state (msg : Option ClientMessage) (rm_commit_ok : Bool) (execute_ok : Bool)
    (s : CoordSt) : StepOut :=
  match msg with
  | none => ⟨{ s with state := CoordinatorStates.ABORT }, [], none⟩
  | some (ClientMessage.INSERT_FROM_CLIENT stmt _) =>
    if execute_ok then ⟨s, [CoordEvent.rm_execute stmt], none⟩
    else ⟨{ s with state := CoordinatorStates.ABORT }, [CoordEvent.rm_execute stmt], none⟩
  | some ClientMessage.ABORT_TRANSACTION =>
    ⟨{ s with state := CoordinatorStates.ABORT }, [], none⟩
  | some ClientMessage.COMMIT_TRANSACTION =>
    if rm_commit_ok then
      ⟨{ s with state_log := s.state_log ++ [ (s.transaction_id, 'C') ],
                state := CoordinatorStates.POLLING },
       [CoordEvent.rm_commit, CoordEvent.wal_append s.transaction_id 'C',
        CoordEvent.wal_flush], none⟩
    else
      ⟨{ s with state_log := s.state_log ++ [ (s.transaction_id, 'A') ],
                state := CoordinatorStates.ABORT },
       [CoordEvent.rm_commit_failed, CoordEvent.wal_append s.transaction_id 'A',
        CoordEvent.wal_flush], none⟩
  | some ClientMessage.unknown_op => ⟨s, [], none⟩

/-- coordinate.py:194-201, the closure `_poll_participants(participant,
participant_socket)` as `multiprocessing.dummy.Pool.map` actually calls it:
the pool applies it to one element of the iterable `self.active_map`, a dict
whose iteration yields keys alone, so every call raises
`TypeError: _poll_participants() missing 1 required positional argument`. -/
def _poll_participants_as_called (_participant : Nat) : Except PyErr Bool :=
  Except.error PyErr.typeError

/-- `Pool.map`: applies the worker function to each element in order and
re-raises the first exception a call raised. -/
def pool_map (f : Nat → Except PyErr Bool) : List Nat → Except PyErr (List Bool)
  | [] => Except.ok []
  | k :: rest =>
    match f k with
    | Except.error e => Except.error e
    | Except.ok b => (pool_map f rest).map fun bs => b :: bs

/-- coordinate.py:206, `thread_pool.join()` called before
`thread_pool.close()`: `multiprocessing.pool.Pool.join` on a pool still in
the RUN state raises `ValueError: Pool is still running`. -/
def pool_join_running : Except PyErr Unit :=
  Except.error PyErr.valueError

/-- coordinate.py:193-214, `_polling_state`: map `_poll_participants` over
`self.active_map` in a pool of 4, join, then move to COMMIT when `all` votes
are true and to ABORT otherwise. As called, every worker invocation raises
TypeError (non-empty map) and the premature join raises ValueError (empty
map), so `self.state` is never assigned and the decision code is dead. -/
def _polling_state (s : CoordSt) : StepOut :=
  match pool_map _poll_participants_as_called s.active_map with
  | Except.error e => ⟨s, [], some e⟩
  | Except.ok votes =>
    match pool_join_running with
    | Except.error e => ⟨s, [], some e⟩
    | Except.ok _ =>
      if votes.all id then ⟨{ s with state := CoordinatorStates.COMMIT }, [], none⟩
      else ⟨{ s with state := CoordinatorStates.ABORT }, [], none⟩

/-- coordinate.py:216-236, `_abort_state`: execute every undo statement of
the WAL on the RM, append `A` through `wal.log_abort_of` and flush (lines
228-229), multicast ROLLBACK_FROM_COORDINATOR, then — when participants
remain — set `previous_state = CoordinatorStates.COMMIT` (line 233, verbatim
from the source) and move to WAITING, else move to FINISHED. With a
non-empty map the multicast raises first, so the function ends with `A`
appended but with no state transition and `previous_state` untouched. -/
def _abort_state (s : CoordSt) : StepOut :=
  let undo := WriteAheadLogger.get_undo_for s.action_log s.transaction_id
  let ev := undo.map CoordEvent.rm_execute ++
    [CoordEvent.wal_append s.transaction_id 'A', CoordEvent.wal_flush]
  let s1 : CoordSt := { s with state_log := s.state_log ++ [ (s.transaction_id, 'A') ] }
  let m := _final_multicast OpCode.ROLLBACK_FROM_COORDINATOR s1
  match m.err with
  | some e => ⟨m.st, ev ++ m.events, some e⟩
  | none =>
    if m.st.active_map.length ≠ 0 then
      ⟨{ m.st with previous_state := some CoordinatorStates.COMMIT,
                   state := CoordinatorStates.WAITING }, ev ++ m.events, none⟩
    else
      ⟨{ m.st with state := CoordinatorStates.FINISHED }, ev ++ m.events, none⟩

/-- coordinate.py:238-249, `_commit_state`: append `C` through
`wal.log_commit_of` and flush (lines 240-241), multicast
COMMIT_FROM_COORDINATOR, then set `previous_state = COMMIT` and move to
WAITING when participants remain, else move to FINISHED. No RM commit is
issued anywhere in this handler. -/
def _commit_state (s : CoordSt) : StepOut :=
  let ev := [CoordEvent.wal_append s.transaction_id 'C', CoordEvent.wal_flush]
  let s1 : CoordSt := { s with state_log := s.state_log ++ [ (s.transaction_id, 'C') ] }
  let m := _final_multicast OpCode.COMMIT_FROM_COORDINATOR s1
  match m.err with
  | some e => ⟨m.st, ev ++ m.events, some e⟩
  | none =>
    if m.st.active_map.length ≠ 0 then
      ⟨{ m.st with previous_state := some CoordinatorStates.COMMIT,
                   state := CoordinatorStates.WAITING }, ev ++ m.events, none⟩
    else
      ⟨{ m.st with state := CoordinatorStates.FINISHED }, ev ++ m.events, none⟩

/-- coordinate.py:268-269: the op code the WAITING loop passes to
`_final_multicast` — COMMIT_FROM_COORDINATOR exactly when
`self.previous_state == CoordinatorStates.COMMIT`, else
ROLLBACK_FROM_COORDINATOR. -/
def waiting_multicast_op (s : CoordSt) : OpCode :=
  if s.previous_state = some CoordinatorStates.COMMIT then OpCode.COMMIT_FROM_COORDINATOR
  else OpCode.ROLLBACK_FROM_COORDINATOR

/-- coordinate.py:251-273, `_waiting_state`: while participants remain,
reconnect them and multicast `waiting_multicast_op`; when none remain, move
to FINISHED. With a non-empty map the multicast raises TypeError on its
first iteration (before sending anything), killing the thread; one loop
iteration therefore models the loop. The reconnect calls touch no modelled
state. -/
def _waiting_state (s : CoordSt) : StepOut :=
  if s.active_map.isEmpty then ⟨{ s with state := CoordinatorStates.FINISHED }, [], none⟩
  else
    let m := _final_multicast (waiting_multicast_op s) s
    ⟨m.st, m.events, m.err⟩

/-- coordinate.py:119-121, `_initialize_state` (shortened to `_init_state`
here): the call `self.wal.initialize_transaction(self.transaction_id,
TransactionRole.COORDINATOR, self.node_id)` passes three arguments to
`recovery.WriteAheadLogger`'s two-parameter method (recovery.py:55), so it
raises TypeError before any row is written and before the transition to
ACTIVE at line 121. -/
def _init_state (s : CoordSt) : StepOut :=
  ⟨s, [], some PyErr.typeError⟩

/-- coordinate.py:123-151, `_recovery_state`: line 124 reads
`self.wal.is_transaction_prepared`, an attribute `recovery.WriteAheadLogger`
does not define, so AttributeError is raised before any effect. -/
def _recovery_state (s : CoordSt) : StepOut :=
  ⟨s, [], some PyErr.attributeError⟩

/-- coordinate.py:275-279, `_finished_state`: append `D` through
`wal.log_completion_of`, flush, and release resources. -/
def _finished_state (s : CoordSt) : StepOut :=
  ⟨{ s with state_log := s.state_log ++ [ (s.transaction_id, 'D') ] },
   [CoordEvent.wal_append s.transaction_id 'D', CoordEvent.wal_flush], none⟩

/-- One iteration of the dispatch in coordinate.py:345-376, `run`: the
handler selected by `self.state`. The oracle triple is consumed by the
ACTIVE handler alone; the FINISHED branch is never taken by `run_loop`,
which exits its loop first, exactly as `run`'s `while` guard does. -/
def run_step (msg : Option ClientMessage) (rm_commit_ok execute_ok : Bool) (s : CoordSt) :
    StepOut :=
  match s.state with
  | CoordinatorStates.INIT => _init_state s
  | CoordinatorStates.RECOVERY => _recovery_state s
  | CoordinatorStates.ACTIVE => _active_state msg rm_commit_ok execute_ok s
  | CoordinatorStates.POLLING => _polling_state s
  | CoordinatorStates.ABORT => _abort_state s
  | CoordinatorStates.COMMIT => _commit_state s
  | CoordinatorStates.WAITING => _waiting_state s
  | CoordinatorStates.FINISHED => ⟨s, [], none⟩

/-- coordinate.py:345-376, `run`'s while loop: iterate handlers until the
state is FINISHED. An exception a handler raises propagates out of `run`,
killing the thread: no further handler runs and `_finished_state` is
skipped. The trace supplies one oracle triple per iteration; a truncated
trace observes the loop mid-run, so every reachable point of the loop is
the value of `run_loop` on some trace. -/
def run_loop : List (Option ClientMessage × Bool × Bool) → CoordSt → CoordSt
  | [], s => s
  | (msg, rm_commit_ok, execute_ok) :: rest, s =>
    if s.state = CoordinatorStates.FINISHED then s
    else
      match run_step msg rm_commit_ok execute_ok s with
      | ⟨s1, _, some _⟩ => s1
      | ⟨s1, _, none⟩ => run_loop rest s1

/-- coordinate.py:345-376 with its epilogue: when (and only when) the while
loop exits normally, `_finished_state` runs once (line 376). -/
def thread_exec (tr : List (Option ClientMessage × Bool × Bool)) (s0 : CoordSt) : CoordSt :=
  let s := run_loop tr s0
  if s.state = CoordinatorStates.FINISHED then (_finished_state s).st else s

/-- The inductive invariant of the coordinator's run loop: no transaction
id has both a C and an A record in the WAL's STATE_LOG; a coordinator still
in ACTIVE has logged neither C nor A for its own transaction; one in ABORT
has not logged C for it; one in COMMIT has not logged A for it. -/
def coord_inv (s : CoordSt) : Prop :=
  (∀ t : String, ¬((t, 'C') ∈ s.state_log ∧ (t, 'A') ∈ s.state_log)) ∧
  (s.state = CoordinatorStates.ACTIVE →
    (s.transaction_id, 'C') ∉ s.state_log ∧ (s.transaction_id, 'A') ∉ s.state_log) ∧
  (s.state = CoordinatorStates.ABORT → (s.transaction_id, 'C') ∉ s.state_log) ∧
  (s.state = CoordinatorStates.COMMIT → (s.transaction_id, 'A') ∉ s.state_log)

end TransactionCoordinatorThread

namespace TransactionParticipantThread

/-- participate.py:16-25, class ParticipantStates. (The first state is named
INITIALIZE in the source; it is shortened to INIT here.) -/
inductive ParticipantStates
  | INIT
  | RECOVERY
  | ACTIVE
  | PREPARED
  | ABORT
  | COMMIT
  | WAITING
  | FINISHED
deriving DecidableEq, Repr

/-- The `content` argument of participate.py's `_send_edge`: either an
OpCode or a ResponseCode (line 109 and 124). -/
inductive EdgeContent
  | op_code (o : OpCode)
  | response (r : ResponseCode)
deriving DecidableEq, Repr

/-- The per-thread participant state of participate.py: the `state`,
`previous_edge_property`, `transaction_id` and `is_socket_changed`
attributes, together with the `PROTOCOL_DB` rows the thread appends through
`shared.WriteAheadLogger.log_commit_of` / `log_abort_of` /
`log_completion_of` (shared.py inserts the characters C, A, D there). -/
structure PartSt where
  state : ParticipantStates
  previous_edge_property : Option EdgeContent
  transaction_id : String
  is_socket_changed : Bool
  protocol_rows : List (String × Char)
deriving DecidableEq, Repr

/-- The externally observable actions a participant state handler performs,
in program order. Send events record the attempt; the oracle parameters of
the handlers say whether the peer received it. -/
inductive PartEvent
  | rm_commit
  | rm_commit_failed
  | rm_execute (statement : String)
  | wal_append (transaction_id : String) (state : Char)
  | wal_flush
  | send_response (r : ResponseCode)
  | send_op (o : OpCode)
deriving DecidableEq, Repr

/-- Python truthiness of the value `_send_edge` returns: `None` and `False`
are falsy; `True` and a non-empty message list are truthy. -/
inductive PyTruthiness
  | truthy
  | falsy
deriving DecidableEq, Repr

/-- participate.py:106-135, `_send_edge`. For an OpCode: `send_op`, and on
send failure set `previous_edge_property` to the content, move to WAITING
and return `None` (falsy); otherwise `read_message`, and on a null read do
the same; on success return the message list (truthy). For a ResponseCode:
`send_response`, returning its boolean; on `False` set
`previous_edge_property` and move to WAITING. `send_ok` and `read_result`
are the socket oracles. -/
def _send_edge (content : EdgeContent) (send_ok : Bool) (read_result : Option ResponseCode)
    (s : PartSt) : PartSt × PyTruthiness × List PartEvent :=
  match content with
  | EdgeContent.op_code o =>
    if send_ok then
      match read_result with
      | none =>
        ({ s with previous_edge_property := some content, state := ParticipantStates.WAITING },
         PyTruthiness.falsy, [PartEvent.send_op o])
      | some _ => (s, PyTruthiness.truthy, [PartEvent.send_op o])
    else
      ({ s with previous_edge_property := some content, state := ParticipantStates.WAITING },
       PyTruthiness.falsy, [PartEvent.send_op o])
  | EdgeContent.response r =>
    if send_ok then (s, PyTruthiness.truthy, [PartEvent.send_response r])
    else
      ({ s with previous_edge_property := some content, state := ParticipantStates.WAITING },
       PyTruthiness.falsy, [PartEvent.send_response r])

/-- The outcome of running one participant state handler: the state after
the handler returned or raised, the events it performed in order, and the
exception it raised (`none` when it returned normally). -/
structure StepOut where
  st : PartSt
  events : List PartEvent
  err : Option PyErr
deriving DecidableEq, Repr

/-- participate.py:183-226, `_active_state` of the participant. `msg` is the
op code of the message read (`none` on a null read). The outcome of
`self.conn.commit()` is the oracle `rm_commit_ok`. On
INSERT_FROM_COORDINATOR the source reads `client_message[2]` (line 193),
but the message the coordinator sends is the two-element list
`[op, statement]` (coordinate.py:321), so the index raises IndexError —
outside any try — before the statement is touched, killing the thread on
every real insert. On PREPARE_TO_COMMIT the source commits the RM (line
202), appends `C` through `wal.log_commit_of` and flushes (lines 206-207,
writing the character C into the shared-WAL table), replies
PREPARED_FROM_PARTICIPANT and moves to PREPARED (lines 209-210); on an RM
exception it appends `A`, flushes, replies ABORT_FROM_PARTICIPANT and moves
to ABORT (lines 214-218). It never calls an RM prepare, never writes a `P`
record, and no attribute named is_prepared exists anywhere in the source. -/
def _active_state (msg : Option OpCode) (rm_commit_ok : Bool) (s : PartSt) : StepOut :=
  match msg with
  | none => ⟨{ s with state := ParticipantStates.ABORT }, [], none⟩
  | some OpCode.INSERT_FROM_COORDINATOR => ⟨s, [], some PyErr.indexError⟩
  | some OpCode.PREPARE_TO_COMMIT =>
    if rm_commit_ok then
      ⟨{ s with
          protocol_rows := s.protocol_rows ++ [ (s.transaction_id, 'C') ],
          state := ParticipantStates.PREPARED },
       [PartEvent.rm_commit, PartEvent.wal_append s.transaction_id 'C', PartEvent.wal_flush,
        PartEvent.send_response ResponseCode.PREPARED_FROM_PARTICIPANT], none⟩
    else
      ⟨{ s with
          protocol_rows := s.protocol_rows ++ [ (s.transaction_id, 'A') ],
          state := ParticipantStates.ABORT },
       [PartEvent.rm_commit_failed, PartEvent.wal_append s.transaction_id 'A',
        PartEvent.wal_flush, PartEvent.send_response ResponseCode.ABORT_FROM_PARTICIPANT], none⟩
  | some OpCode.ABORT_TRANSACTION =>
    ⟨{ s with state := ParticipantStates.ABORT },
     [PartEvent.send_response ResponseCode.ABORT_FROM_PARTICIPANT], none⟩
  | some _ => ⟨s, [], none⟩

/-- participate.py:228-244, `_prepared_state`: read one message. A null read
moves to WAITING with `previous_edge_property = None` (lines 231-234). The
dispatch matches `OpCode.COMMIT_TRANSACTION` → COMMIT,
`OpCode.ABORT_TRANSACTION` → ABORT, `OpCode.PREPARE_TO_COMMIT` → PREPARED;
every other op code — including COMMIT_FROM_COORDINATOR and
ROLLBACK_FROM_COORDINATOR, the codes the coordinator's `_final_multicast`
actually sends — falls to the warn-and-ignore branch and leaves the state
unchanged. -/
def _prepared_state (msg : Option OpCode) (s : PartSt) : PartSt :=
  match msg with
  | none => { s with state := ParticipantStates.WAITING, previous_edge_property := none }
  | some OpCode.COMMIT_TRANSACTION => { s with state := ParticipantStates.COMMIT }
  | some OpCode.ABORT_TRANSACTION => { s with state := ParticipantStates.ABORT }
  | some OpCode.PREPARE_TO_COMMIT => { s with state := ParticipantStates.PREPARED }
  | some _ => s

/-- participate.py:286-312, `_waiting_state`: close the stale socket, block
until `inject_socket` flips `is_socket_changed`, then: with a recorded edge,
replay it through `_send_edge` — a falsy result is `pass` (the run loop
re-enters WAITING), a truthy one releases resources and moves to FINISHED
(the trailing branch matching COMMIT_TRANSACTION / ABORT_TRANSACTION is
unreachable, since `elif coordinator_response:` already took every truthy
value). With no recorded edge (`else`, line 311-312) the state is set to
PREPARED and nothing is sent on the fresh socket. -/
def _waiting_state (send_ok : Bool) (read_result : Option ResponseCode) (s : PartSt) :
    PartSt × List PartEvent :=
  match s.previous_edge_property with
  | some content =>
    let r := _send_edge content send_ok read_result s
    match r.2.1 with
    | PyTruthiness.falsy => (r.1, r.2.2)
    | PyTruthiness.truthy => ({ r.1 with state := ParticipantStates.FINISHED }, r.2.2)
  | none => ({ s with state := ParticipantStates.PREPARED }, [])

end TransactionParticipantThread

namespace TransactionManagerThread

/-- manager.py:25-30, class TransactionManagerStates. (INITIALIZE is
shortened to INIT.) -/
inductive TransactionManagerStates
  | RECOVERY
  | INIT
  | ACTIVE
  | FINISHED
deriving DecidableEq, Repr

/-- The daemon state of manager.py: its FSM state and the keys of
`child_threads` (one transaction id per spawned coordinator or participant
thread; the thread objects are left abstract). -/
structure ManagerSt where
  state : TransactionManagerStates
  child_threads : List String
deriving DecidableEq, Repr

/-- The externally observable actions of one pass of the daemon's dispatch
loop, in program order. -/
inductive ManagerEvent
  | send_response_ack
  | close_channel
  | inject_socket (transaction_id : String)
  | spawn_coordinator (transaction_id : String)
  | spawn_participant (transaction_id : String)
  | reply_start (transaction_id : String)
deriving DecidableEq, Repr

/-- One message read by the dispatch loop (manager.py:199-200), tagged by
its op code with the transaction-id payload where the loop reads one. -/
inductive ManagerMessage
  | NO_OP
  | SHUTDOWN
  | START_TRANSACTION
  | INITIATE_PARTICIPANT (transaction_id : String)
  | COMMIT_FROM_COORDINATOR (transaction_id : String)
  | ROLLBACK_FROM_COORDINATOR (transaction_id : String)
  | unknown_op
deriving DecidableEq, Repr

/-- manager.py:194-243, `_active_state` of the daemon: accept a connection,
read one message and dispatch on its op code. NO_OP: nothing. SHUTDOWN: move
to FINISHED and close. START_TRANSACTION: spawn a coordinator (its fresh
transaction id is the oracle `fresh_tid`), record it in `child_threads`,
reply on the channel, start it. INITIATE_PARTICIPANT: spawn a participant
and record it. COMMIT_FROM_COORDINATOR / ROLLBACK_FROM_COORDINATOR (lines
228-240): when the transaction id is not a key of `child_threads`, reply
ACKNOWLEDGE_END, sleep briefly and close the channel, touching nothing else;
when it is known, call `inject_socket` on that child. Anything else is
logged and ignored. -/
def _active_state (msg : ManagerMessage) (fresh_tid : String) (m : ManagerSt) :
    ManagerSt × List ManagerEvent :=
  match msg with
  | ManagerMessage.NO_OP => (m, [])
  | ManagerMessage.SHUTDOWN =>
    ({ m with state := TransactionManagerStates.FINISHED }, [ManagerEvent.close_channel])
  | ManagerMessage.START_TRANSACTION =>
    ({ m with child_threads := m.child_threads ++ [fresh_tid] },
     [ManagerEvent.spawn_coordinator fresh_tid, ManagerEvent.reply_start fresh_tid])
  | ManagerMessage.INITIATE_PARTICIPANT tid =>
    ({ m with child_threads := m.child_threads ++ [tid] },
     [ManagerEvent.spawn_participant tid])
  | ManagerMessage.COMMIT_FROM_COORDINATOR tid =>
    if tid ∈ m.child_threads then (m, [ManagerEvent.inject_socket tid])
    else (m, [ManagerEvent.send_response_ack, ManagerEvent.close_channel])
  | ManagerMessage.ROLLBACK_FROM_COORDINATOR tid =>
    if tid ∈ m.child_threads then (m, [ManagerEvent.inject_socket tid])
    else (m, [ManagerEvent.send_response_ack, ManagerEvent.close_channel])
  | ManagerMessage.unknown_op => (m, [])

end TransactionManagerThread

namespace TransactionCoordinatorThread

/-- A coordinator in ACTIVE for transaction "t0" with one remote participant
(node 1) in the active map and empty WAL tables. -/
def fix_active1 : CoordSt :=
  ⟨CoordinatorStates.ACTIVE, none, "t0", [1], [], []⟩

/-- A coordinator in ACTIVE for transaction "t0" with an empty active map
(the single-site case) and empty WAL tables. -/
def fix_active0 : CoordSt :=
  ⟨CoordinatorStates.ACTIVE, none, "t0", [], [], []⟩

/-- A coordinator in ABORT with one unacknowledged participant left. -/
def fix_abort1 : CoordSt :=
  ⟨CoordinatorStates.ABORT, none, "t0", [1], [], []⟩

/-- A coordinator in ABORT with no participants left. -/
def fix_abort0 : CoordSt :=
  ⟨CoordinatorStates.ABORT, none, "t0", [], [], []⟩

/-- A coordinator in WAITING whose recorded previous state is COMMIT — the
value coordinate.py:233 stores on the path out of ABORT. -/
def fix_waiting_prevcommit : CoordSt :=
  ⟨CoordinatorStates.WAITING, some CoordinatorStates.COMMIT, "t0", [1], [ ("t0", 'A') ], []⟩

/-- A coordinator in COMMIT with no participants and empty WAL tables. -/
def fix_commit0 : CoordSt :=
  ⟨CoordinatorStates.COMMIT, none, "t0", [], [], []⟩

/-- A coordinator in POLLING with one participant to poll. -/
def fix_polling1 : CoordSt :=
  ⟨CoordinatorStates.POLLING, none, "t0", [1], [ ("t0", 'C') ], []⟩

/-- A coordinator in POLLING with an empty active map. -/
def fix_polling0 : CoordSt :=
  ⟨CoordinatorStates.POLLING, none, "t0", [], [ ("t0", 'C') ], []⟩

end TransactionCoordinatorThread

namespace TransactionParticipantThread

/-- A participant in PREPARED for transaction "t0", no recorded edge, with
the C row its PREPARE_TO_COMMIT handler wrote. -/
def fix_prepared : PartSt :=
  ⟨ParticipantStates.PREPARED, none, "t0", false, [ ("t0", 'C') ]⟩

/-- A participant in ACTIVE for transaction "t0" with an empty log. -/
def fix_part_active : PartSt :=
  ⟨ParticipantStates.ACTIVE, none, "t0", false, []⟩

end TransactionParticipantThread

namespace TransactionManagerThread

/-- A daemon in its dispatch loop that knows no transaction. -/
def fix_mgr_empty : ManagerSt :=
  ⟨TransactionManagerStates.ACTIVE, []⟩

/-- A daemon in its dispatch loop with one child thread, for "ta". -/
def fix_mgr_known : ManagerSt :=
  ⟨TransactionManagerStates.ACTIVE, [ "ta" ]⟩

end TransactionManagerThread

/-- A WAL `ACTION_LOG` with two logged INSERT statements of transaction "t". -/
def wal_fixture : List (String × String) :=
  [ ("t", "insert into tab values ( 7, 8);"),
    ("t", "insert into tab values ( 9, 10);") ]

/-- A protocol-database `STATE_LOG` holding a committed and completed
transaction "t1": a C record followed by a D record. -/
def state_log_fixture : List (String × Char) :=
  [ ("t1", 'C'), ("t1", 'D') ]

namespace ProtocolDatabase

/-- `group_concat` of a non-empty state list is non-empty. -/
theorem group_concat_ne_nil : ∀ (ss : List Char), ss ≠ [] → group_concat ss ≠ []
  | [], h => absurd rfl h
  | [_], _ => by simp [group_concat]
  | _ :: _ :: _, _ => by simp [group_concat]

/-- The last character of `GROUP_CONCAT(state)` over a non-empty group is
the last state of the group: each state is one character and the comma
separators never land last. -/
theorem getLast?_group_concat : ∀ (ss : List Char), ss ≠ [] →
    (group_concat ss).getLast? = ss.getLast?
  | [], h => absurd rfl h
  | [_], _ => rfl
  | c :: d :: rest, _ => by
    have ih := getLast?_group_concat (d :: rest) (by simp)
    obtain ⟨g, G, hG⟩ := List.exists_cons_of_ne_nil (group_concat_ne_nil (d :: rest) (by simp))
    calc (group_concat (c :: d :: rest)).getLast?
        = (c :: ',' :: group_concat (d :: rest)).getLast? := rfl
      _ = (c :: ',' :: g :: G).getLast? := by rw [hG]
      _ = (g :: G).getLast? := by rw [List.getLast?_cons_cons, List.getLast?_cons_cons]
      _ = (group_concat (d :: rest)).getLast? := by rw [hG]
      _ = (d :: rest).getLast? := ih

/-- A transaction with a row in `STATE_LOG` has a non-empty state history. -/
theorem statesOf_ne_nil {state_log : List (String × Char)} {t : String}
    (h : t ∈ state_log.map Prod.fst) : statesOf state_log t ≠ [] := by
  obtain ⟨r, hr, hrt⟩ := List.mem_map.mp h
  have hrf : r ∈ state_log.filter (fun x => x.1 == t) :=
    List.mem_filter.mpr ⟨hr, by simp [hrt]⟩
  have hmem := List.mem_map_of_mem Prod.snd hrf
  exact List.ne_nil_of_mem hmem

end ProtocolDatabase

/-- Claim C8, corrected: `get_abortable_transactions` does not test whether
the history CONTAINS a C, P or A record — sqlite's `NOT LIKE "%C"` tests the
END of `GROUP_CONCAT(state)`. The function returns exactly the transactions
that have at least one state record and whose LAST state record is neither
C nor P nor A. -/
theorem claim_C8 (state_log : List (String × Char)) (t : String) :
    t ∈ ProtocolDatabase.get_abortable_transactions state_log ↔
      (t ∈ state_log.map Prod.fst ∧
       (ProtocolDatabase.statesOf state_log t).getLast? ≠ some 'C' ∧
       (ProtocolDatabase.statesOf state_log t).getLast? ≠ some 'P' ∧
       (ProtocolDatabase.statesOf state_log t).getLast? ≠ some 'A') := by
  unfold ProtocolDatabase.get_abortable_transactions
  rw [List.mem_filter, List.mem_dedup]
  constructor
  · rintro ⟨hmem, hpred⟩
    have hgc := ProtocolDatabase.getLast?_group_concat (ProtocolDatabase.statesOf state_log t)
      (ProtocolDatabase.statesOf_ne_nil hmem)
    simp only [ProtocolDatabase.like_pct, hgc, Bool.and_eq_true, Bool.not_eq_true',
      beq_eq_false_iff_ne, ne_eq] at hpred
    exact ⟨hmem, hpred.1.1, hpred.1.2, hpred.2⟩
  · rintro ⟨hmem, h1, h2, h3⟩
    refine ⟨hmem, ?_⟩
    have hgc := ProtocolDatabase.getLast?_group_concat (ProtocolDatabase.statesOf state_log t)
      (ProtocolDatabase.statesOf_ne_nil hmem)
    simp only [ProtocolDatabase.like_pct, hgc, Bool.and_eq_true, Bool.not_eq_true',
      beq_eq_false_iff_ne, ne_eq]
    exact ⟨⟨h1, h2⟩, h3⟩

/-- Claim C8's counterexample: on a log holding C then D for "t1" — a
committed, completed transaction — the claim says "t1" must not be returned
(its history contains a C record), yet the code returns it, because
`GROUP_CONCAT` gives "C,D", which does not END with C, P or A. -/
theorem counterexample_C8 :
    "t1" ∈ ProtocolDatabase.get_abortable_transactions state_log_fixture ∧
    'C' ∈ ProtocolDatabase.statesOf state_log_fixture "t1" := by decide

/-- Claim C10, confirmed: for every transaction, `get_undo_for` has the same
length as `get_redo_for`, and its i-th element is `_get_inverse_statement`
of the (n-1-i)-th redo statement — it is the statement inverse mapped over
the reversal of the redo list. -/
theorem claim_C10 (action_log : List (String × String)) (transaction_id : String) :
    (WriteAheadLogger.get_undo_for action_log transaction_id).length =
      (WriteAheadLogger.get_redo_for action_log transaction_id).length ∧
    ∀ i : Nat, i < (WriteAheadLogger.get_redo_for action_log transaction_id).length →
      (WriteAheadLogger.get_undo_for action_log transaction_id)[i]? =
        ((WriteAheadLogger.get_redo_for action_log transaction_id)[
            (WriteAheadLogger.get_redo_for action_log transaction_id).length - 1 - i]?).map
          WriteAheadLogger._get_inverse_statement := by
  constructor
  · simp [WriteAheadLogger.get_undo_for]
  · intro i hi
    unfold WriteAheadLogger.get_undo_for
    rw [List.getElem?_map, List.getElem?_reverse hi]

/-- Claim C10's witness: the first undo statement of a two-insert
transaction is the inverse of its last (second) redo statement. -/
theorem claim_C10_witness :
    0 < (WriteAheadLogger.get_redo_for wal_fixture "t").length ∧
    (WriteAheadLogger.get_undo_for wal_fixture "t")[0]? =
      ((WriteAheadLogger.get_redo_for wal_fixture "t")[
          (WriteAheadLogger.get_redo_for wal_fixture "t").length - 1 - 0]?).map
        WriteAheadLogger._get_inverse_statement :=
  ⟨by decide, (claim_C10 wal_fixture "t").2 0 (by decide)⟩

namespace TransactionCoordinatorThread

/-- Appending a row whose state character differs from a sought row's state
character does not affect that row's membership in STATE_LOG. -/
theorem mem_append_pair {l : List (String × Char)} {t u : String} {c d : Char}
    (hcd : c ≠ d) : ((t, c) ∈ l ++ [ (u, d) ]) ↔ (t, c) ∈ l := by
  simp [List.mem_append, Prod.ext_iff, hcd]

/-- Appending (tid, C) to a log that pairs no tid and holds no (tid, A)
still pairs no tid. -/
theorem all_no_pair_append_C {l : List (String × Char)} {tid : String}
    (hall : ∀ t : String, ¬((t, 'C') ∈ l ∧ (t, 'A') ∈ l))
    (hna : (tid, 'A') ∉ l) :
    ∀ t : String, ¬((t, 'C') ∈ l ++ [ (tid, 'C') ] ∧ (t, 'A') ∈ l ++ [ (tid, 'C') ]) := by
  rintro t ⟨hc, ha⟩
  have ha' : (t, 'A') ∈ l := (mem_append_pair (by decide)).mp ha
  rcases List.mem_append.mp hc with hc' | hc''
  · exact hall t ⟨hc', ha'⟩
  · have ht : t = tid := (Prod.ext_iff.mp (List.mem_singleton.mp hc'')).1
    exact hna (ht ▸ ha')

/-- Appending (tid, A) to a log that pairs no tid and holds no (tid, C)
still pairs no tid. -/
theorem all_no_pair_append_A {l : List (String × Char)} {tid : String}
    (hall : ∀ t : String, ¬((t, 'C') ∈ l ∧ (t, 'A') ∈ l))
    (hnc : (tid, 'C') ∉ l) :
    ∀ t : String, ¬((t, 'C') ∈ l ++ [ (tid, 'A') ] ∧ (t, 'A') ∈ l ++ [ (tid, 'A') ]) := by
  rintro t ⟨hc, ha⟩
  have hc' : (t, 'C') ∈ l := (mem_append_pair (by decide)).mp hc
  rcases List.mem_append.mp ha with ha' | ha''
  · exact hall t ⟨hc', ha'⟩
  · have ht : t = tid := (Prod.ext_iff.mp (List.mem_singleton.mp ha'')).1
    exact hnc (ht ▸ hc')

/-- Appending a D record pairs no tid either. -/
theorem all_no_pair_append_D {l : List (String × Char)} {tid : String}
    (hall : ∀ t : String, ¬((t, 'C') ∈ l ∧ (t, 'A') ∈ l)) :
    ∀ t : String, ¬((t, 'C') ∈ l ++ [ (tid, 'D') ] ∧ (t, 'A') ∈ l ++ [ (tid, 'D') ]) := by
  rintro t ⟨hc, ha⟩
  exact hall t ⟨(mem_append_pair (by decide)).mp hc, (mem_append_pair (by decide)).mp ha⟩

/-- The ACTIVE handler preserves the coordinator invariant. -/
theorem _active_state_inv (msg : Option ClientMessage) (rm ex : Bool) {s : CoordSt}
    (h : coord_inv s) (hs : s.state = CoordinatorStates.ACTIVE) :
    coord_inv (_active_state msg rm ex s).st := by
  obtain ⟨hall, hact, -, -⟩ := h
  obtain ⟨hnc, hna⟩ := hact hs
  cases msg with
  | none => exact ⟨hall, fun _ => ⟨hnc, hna⟩, fun _ => hnc, fun _ => hna⟩
  | some m =>
    cases m with
    | INSERT_FROM_CLIENT stmt hsh =>
      cases ex with
      | false => exact ⟨hall, fun _ => ⟨hnc, hna⟩, fun _ => hnc, fun _ => hna⟩
      | true => exact ⟨hall, fun _ => ⟨hnc, hna⟩, fun _ => hnc, fun _ => hna⟩
    | ABORT_TRANSACTION => exact ⟨hall, fun _ => ⟨hnc, hna⟩, fun _ => hnc, fun _ => hna⟩
    | COMMIT_TRANSACTION =>
      cases rm with
      | true =>
        refine ⟨all_no_pair_append_C hall hna, ?_, ?_, ?_⟩ <;> intro hf <;> exact nomatch hf
      | false =>
        refine ⟨all_no_pair_append_A hall hnc, ?_,
          fun _ hc => hnc ((mem_append_pair (by decide)).mp hc), ?_⟩ <;>
          intro hf <;> exact nomatch hf
    | unknown_op => exact ⟨hall, fun _ => ⟨hnc, hna⟩, fun _ => hnc, fun _ => hna⟩

/-- The state `_abort_state` leaves when the active map is empty. -/
theorem _abort_state_st_nil {s : CoordSt} (hm : s.active_map = []) :
    (_abort_state s).st =
      { s with
          state_log := s.state_log ++ [ (s.transaction_id, 'A') ],
          state := CoordinatorStates.FINISHED } := by
  simp [_abort_state, _final_multicast, hm]

/-- The state `_abort_state` leaves when participants remain: the A append
happened, then the multicast raised, so nothing else changed. -/
theorem _abort_state_st_cons {s : CoordSt} {k : Nat} {rest : List Nat}
    (hm : s.active_map = k :: rest) :
    (_abort_state s).st =
      { s with state_log := s.state_log ++ [ (s.transaction_id, 'A') ] } := by
  simp [_abort_state, _final_multicast, hm]

/-- The ABORT handler preserves the coordinator invariant. -/
theorem _abort_state_inv {s : CoordSt} (h : coord_inv s)
    (hs : s.state = CoordinatorStates.ABORT) : coord_inv (_abort_state s).st := by
  obtain ⟨hall, -, habt, -⟩ := h
  have hnc := habt hs
  rcases hm : s.active_map with _ | ⟨k, rest⟩
  · rw [_abort_state_st_nil hm]
    refine ⟨all_no_pair_append_A hall hnc, ?_, ?_, ?_⟩ <;> intro hf <;> exact nomatch hf
  · rw [_abort_state_st_cons hm]
    refine ⟨all_no_pair_append_A hall hnc, ?_, ?_, ?_⟩
    · intro hf
      rw [show ({ s with state_log := s.state_log ++ [ (s.transaction_id, 'A') ] } :
            CoordSt).state = s.state from rfl, hs] at hf
      exact absurd hf (by decide)
    · exact fun _ hc => hnc ((mem_append_pair (by decide)).mp hc)
    · intro hf
      rw [show ({ s with state_log := s.state_log ++ [ (s.transaction_id, 'A') ] } :
            CoordSt).state = s.state from rfl, hs] at hf
      exact absurd hf (by decide)

/-- The state `_commit_state` leaves when the active map is empty. -/
theorem _commit_state_st_nil {s : CoordSt} (hm : s.active_map = []) :
    (_commit_state s).st =
      { s with
          state_log := s.state_log ++ [ (s.transaction_id, 'C') ],
          state := CoordinatorStates.FINISHED } := by
  simp [_commit_state, _final_multicast, hm]

/-- The state `_commit_state` leaves when participants remain: the C append
happened, then the multicast raised. -/
theorem _commit_state_st_cons {s : CoordSt} {k : Nat} {rest : List Nat}
    (hm : s.active_map = k :: rest) :
    (_commit_state s).st =
      { s with state_log := s.state_log ++ [ (s.transaction_id, 'C') ] } := by
  simp [_commit_state, _final_multicast, hm]

/-- The COMMIT handler preserves the coordinator invariant. -/
theorem _commit_state_inv {s : CoordSt} (h : coord_inv s)
    (hs : s.state = CoordinatorStates.COMMIT) : coord_inv (_commit_state s).st := by
  obtain ⟨hall, -, -, hcmt⟩ := h
  have hna := hcmt hs
  rcases hm : s.active_map with _ | ⟨k, rest⟩
  · rw [_commit_state_st_nil hm]
    refine ⟨all_no_pair_append_C hall hna, ?_, ?_, ?_⟩ <;> intro hf <;> exact nomatch hf
  · rw [_commit_state_st_cons hm]
    refine ⟨all_no_pair_append_C hall hna, ?_, ?_, ?_⟩
    · intro hf
      rw [show ({ s with state_log := s.state_log ++ [ (s.transaction_id, 'C') ] } :
            CoordSt).state = s.state from rfl, hs] at hf
      exact absurd hf (by decide)
    · intro hf
      rw [show ({ s with state_log := s.state_log ++ [ (s.transaction_id, 'C') ] } :
            CoordSt).state = s.state from rfl, hs] at hf
      exact absurd hf (by decide)
    · exact fun _ ha => hna ((mem_append_pair (by decide)).mp ha)

/-- The POLLING handler never changes the state: it raises first. -/
theorem _polling_state_st (s : CoordSt) : (_polling_state s).st = s := by
  rcases hm : s.active_map with _ | ⟨k, rest⟩ <;>
    simp [_polling_state, pool_map, _poll_participants_as_called, pool_join_running, hm]

/-- The WAITING handler preserves the coordinator invariant: it appends
nothing, moving to FINISHED when the map is empty and raising otherwise. -/
theorem _waiting_state_inv {s : CoordSt} (h : coord_inv s) :
    coord_inv (_waiting_state s).st := by
  obtain ⟨hall, hact, habt, hcmt⟩ := h
  rcases hm : s.active_map with _ | ⟨k, rest⟩
  · rw [show (_waiting_state s).st = { s with state := CoordinatorStates.FINISHED } by
      simp [_waiting_state, hm]]
    refine ⟨hall, ?_, ?_, ?_⟩ <;> intro hf <;> exact nomatch hf
  · rw [show (_waiting_state s).st = s by simp [_waiting_state, _final_multicast, hm]]
    exact ⟨hall, hact, habt, hcmt⟩

/-- One iteration of the run loop preserves the coordinator invariant. -/
theorem run_step_inv (msg : Option ClientMessage) (rm ex : Bool) {s : CoordSt}
    (h : coord_inv s) : coord_inv (run_step msg rm ex s).st := by
  unfold run_step
  cases hstate : s.state with
  | INIT => exact h
  | RECOVERY => exact h
  | ACTIVE => exact _active_state_inv msg rm ex h hstate
  | POLLING => rw [_polling_state_st]; exact h
  | ABORT => exact _abort_state_inv h hstate
  | COMMIT => exact _commit_state_inv h hstate
  | WAITING => exact _waiting_state_inv h
  | FINISHED => exact h

/-- The whole run loop preserves the coordinator invariant. -/
theorem run_loop_inv (tr : List (Option ClientMessage × Bool × Bool)) {s : CoordSt}
    (h : coord_inv s) : coord_inv (run_loop tr s) := by
  induction tr generalizing s with
  | nil => exact h
  | cons i rest ih =>
    obtain ⟨msg, rm, ex⟩ := i
    rw [run_loop]
    by_cases hf : s.state = CoordinatorStates.FINISHED
    · rw [if_pos hf]; exact h
    · rw [if_neg hf]
      have hstep := run_step_inv msg rm ex h
      rcases hout : run_step msg rm ex s with ⟨s1, evs, err⟩
      rw [hout] at hstep
      cases err with
      | some e => exact hstep
      | none => exact ih hstep

/-- A full thread execution — the loop plus the one `_finished_state` run
on normal exit — preserves the coordinator invariant. -/
theorem thread_exec_inv (tr : List (Option ClientMessage × Bool × Bool)) {s0 : CoordSt}
    (h : coord_inv s0) : coord_inv (thread_exec tr s0) := by
  have hrl := run_loop_inv tr h
  rw [thread_exec]
  by_cases hf : (run_loop tr s0).state = CoordinatorStates.FINISHED
  · rw [if_pos hf]
    obtain ⟨hall, -, -, -⟩ := hrl
    refine ⟨all_no_pair_append_D hall, ?_, ?_, ?_⟩ <;>
      intro hx <;> exact absurd (hf.symm.trans hx) (by decide)
  · rw [if_neg hf]; exact hrl

/-- Claim C1, confirmed of the literal code: over any execution of the
coordinator run loop — from any starting state and handler oracles — the
WAL's STATE_LOG never holds both a C and an A record for any transaction
id; in particular a coordinator that has appended C never later appends A.
The hypotheses state what holds when a coordinator thread starts: its own
transaction id is freshly generated (coordinate.py:83-86), so the log holds
no C and no A for it, and the pre-existing log satisfies the claimed
invariant. The code keeps the invariant because the only path that appends
the premature C (ACTIVE handling COMMIT_TRANSACTION) moves to POLLING,
whose handler unconditionally raises, and no other reachable path appends
an A after a C for one tid. -/
theorem claim_C1 (s0 : CoordSt) (tr : List (Option ClientMessage × Bool × Bool)) (t : String)
    (h_own : (s0.transaction_id, 'C') ∉ s0.state_log ∧ (s0.transaction_id, 'A') ∉ s0.state_log)
    (h_all : ∀ u : String, ¬((u, 'C') ∈ s0.state_log ∧ (u, 'A') ∈ s0.state_log)) :
    ¬((t, 'C') ∈ (thread_exec tr s0).state_log ∧
      (t, 'A') ∈ (thread_exec tr s0).state_log) := by
  have h0 : coord_inv s0 := ⟨h_all, fun _ => h_own, fun _ => h_own.1, fun _ => h_own.2⟩
  exact (thread_exec_inv tr h0).1 t

/-- Claim C1's witness: a coordinator that handles a successful
COMMIT_TRANSACTION with one active participant really does append C (the
run is not vacuous), and its log holds no C-and-A pair for that id. -/
theorem claim_C1_witness :
    ("t0", 'C') ∈ (thread_exec
        [ (some ClientMessage.COMMIT_TRANSACTION, true, true) ] fix_active1).state_log ∧
    ¬(("t0", 'C') ∈ (thread_exec
          [ (some ClientMessage.COMMIT_TRANSACTION, true, true) ] fix_active1).state_log ∧
      ("t0", 'A') ∈ (thread_exec
          [ (some ClientMessage.COMMIT_TRANSACTION, true, true) ] fix_active1).state_log) :=
  ⟨by decide,
   claim_C1 fix_active1 [ (some ClientMessage.COMMIT_TRANSACTION, true, true) ] "t0"
     (by decide) (fun _ h => List.not_mem_nil _ h.1)⟩

/-- Claim C2, a code bug: a coordinator running ABORT with an
unacknowledged participant never records ABORT as the previous decision. The
multicast raises TypeError first (the dict iteration bug), so no transition
happens and `previous_state` stays untouched; with no participants the
handler goes straight to FINISHED, again recording nothing. The only
assignment in `_abort_state` writes COMMIT (coordinate.py:233), under which
the WAITING re-multicast would pick COMMIT_FROM_COORDINATOR, not
ROLLBACK_FROM_COORDINATOR (last conjunct). -/
theorem claim_C2 :
    (_abort_state fix_abort1).err = some PyErr.typeError ∧
    (_abort_state fix_abort1).st.previous_state = none ∧
    (_abort_state fix_abort1).st.state = CoordinatorStates.ABORT ∧
    (_abort_state fix_abort0).st.state = CoordinatorStates.FINISHED ∧
    (_abort_state fix_abort0).st.previous_state = none ∧
    waiting_multicast_op fix_waiting_prevcommit = OpCode.COMMIT_FROM_COORDINATOR := by decide

/-- Claim C3's counterexample: with an empty active map and a successful RM
call, the coordinator moves to POLLING, not directly to COMMIT, and the RM
operation it invoked was a commit — no RM prepare is ever invoked. -/
theorem counterexample_C3 :
    (_active_state (some ClientMessage.COMMIT_TRANSACTION) true true fix_active0).st.state
        = CoordinatorStates.POLLING ∧
    (_active_state (some ClientMessage.COMMIT_TRANSACTION) true true fix_active0).st.state
        ≠ CoordinatorStates.COMMIT ∧
    CoordEvent.rm_commit
        ∈ (_active_state (some ClientMessage.COMMIT_TRANSACTION) true true fix_active0).events ∧
    CoordEvent.rm_prepare
        ∉ (_active_state (some ClientMessage.COMMIT_TRANSACTION) true true fix_active0).events := by
  decide

/-- Claim C3 as amended: when a coordinator in ACTIVE receives
COMMIT_TRANSACTION it invokes RM commit (not prepare) on its local
connection and, on success, appends C to the WAL and moves to POLLING
regardless of whether the active map is empty; on RM failure it appends A
and moves to ABORT, the later ABORT handler performing the local undo. -/
theorem claim_C3 (s : CoordSt) :
    ((_active_state (some ClientMessage.COMMIT_TRANSACTION) true true s).st.state
        = CoordinatorStates.POLLING ∧
     (_active_state (some ClientMessage.COMMIT_TRANSACTION) true true s).st.state_log
        = s.state_log ++ [ (s.transaction_id, 'C') ] ∧
     (_active_state (some ClientMessage.COMMIT_TRANSACTION) true true s).events
        = [CoordEvent.rm_commit, CoordEvent.wal_append s.transaction_id 'C',
           CoordEvent.wal_flush]) ∧
    ((_active_state (some ClientMessage.COMMIT_TRANSACTION) false true s).st.state
        = CoordinatorStates.ABORT ∧
     (_active_state (some ClientMessage.COMMIT_TRANSACTION) false true s).st.state_log
        = s.state_log ++ [ (s.transaction_id, 'A') ] ∧
     (_active_state (some ClientMessage.COMMIT_TRANSACTION) false true s).events
        = [CoordEvent.rm_commit_failed, CoordEvent.wal_append s.transaction_id 'A',
           CoordEvent.wal_flush]) :=
  ⟨⟨rfl, rfl, rfl⟩, ⟨rfl, rfl, rfl⟩⟩

/-- Claim C4, a code bug: on the commit path the RM commit is issued FIRST
and the C record appended only afterwards (first conjunct: the event order
of the ACTIVE handler), the reverse of the claimed write-ahead order; and
the COMMIT handler, where the claim places the RM commit after the C
append, performs no RM commit at all (remaining conjuncts). The C append
does precede any COMMIT_FROM_COORDINATOR emission. -/
theorem claim_C4 :
    (_active_state (some ClientMessage.COMMIT_TRANSACTION) true true fix_active1).events
        = [CoordEvent.rm_commit, CoordEvent.wal_append "t0" 'C', CoordEvent.wal_flush] ∧
    (_commit_state fix_commit0).events
        = [CoordEvent.wal_append "t0" 'C', CoordEvent.wal_flush] ∧
    CoordEvent.rm_commit ∉ (_commit_state fix_commit0).events := by decide

/-- Claim C7, a code bug: POLLING never collects votes and never decides.
With a participant to poll, `Pool.map` hands the two-parameter closure a
lone dict key and every call raises TypeError; with an empty map the
premature `join()` raises ValueError. In both cases the handler raises with
the state unchanged, so the commit-iff-all-prepared decision is dead code. -/
theorem claim_C7 :
    (_polling_state fix_polling1).err = some PyErr.typeError ∧
    (_polling_state fix_polling1).st = fix_polling1 ∧
    (_polling_state fix_polling0).err = some PyErr.valueError ∧
    (_polling_state fix_polling0).st = fix_polling0 := by decide

end TransactionCoordinatorThread

namespace TransactionParticipantThread

/-- Claim C5, a code bug: a participant in PREPARED ignores
COMMIT_FROM_COORDINATOR and ROLLBACK_FROM_COORDINATOR — the very messages
the coordinator multicasts — and moves on COMMIT_TRANSACTION /
ABORT_TRANSACTION instead; a null read records no TRANSACTION_STATUS edge
(previous_edge_property becomes None), and the WAITING handler with no
recorded edge returns to PREPARED without requesting the transaction status
on the injected channel (its event list is empty). The repository's own
tests assert the claimed behaviour. -/
theorem claim_C5 :
    _prepared_state (some OpCode.COMMIT_FROM_COORDINATOR) fix_prepared = fix_prepared ∧
    _prepared_state (some OpCode.ROLLBACK_FROM_COORDINATOR) fix_prepared = fix_prepared ∧
    (_prepared_state (some OpCode.COMMIT_TRANSACTION) fix_prepared).state
        = ParticipantStates.COMMIT ∧
    (_prepared_state (some OpCode.ABORT_TRANSACTION) fix_prepared).state
        = ParticipantStates.ABORT ∧
    (_prepared_state none fix_prepared).state = ParticipantStates.WAITING ∧
    (_prepared_state none fix_prepared).previous_edge_property = none ∧
    (_prepared_state none fix_prepared).previous_edge_property
        ≠ some (EdgeContent.op_code OpCode.TRANSACTION_STATUS) ∧
    _waiting_state true none (_prepared_state none fix_prepared)
        = ({ fix_prepared with state := ParticipantStates.PREPARED }, []) := by decide

/-- Claim C6, a code bug: on PREPARE_TO_COMMIT with a successful RM call the
participant does reply PREPARED_FROM_PARTICIPANT and move to PREPARED, but
it appends a C record through `log_commit_of` — not the claimed P record
(no P is ever written, and the source has no is_prepared attribute); the
failure path replies ABORT_FROM_PARTICIPANT, appends A and moves to ABORT
as claimed. -/
theorem claim_C6 :
    _active_state (some OpCode.PREPARE_TO_COMMIT) true fix_part_active
        = ⟨{ fix_part_active with
              protocol_rows := [ ("t0", 'C') ],
              state := ParticipantStates.PREPARED },
           [PartEvent.rm_commit, PartEvent.wal_append "t0" 'C', PartEvent.wal_flush,
            PartEvent.send_response ResponseCode.PREPARED_FROM_PARTICIPANT], none⟩ ∧
    PartEvent.wal_append "t0" 'P'
        ∉ (_active_state (some OpCode.PREPARE_TO_COMMIT) true fix_part_active).events ∧
    'P' ∉ ((_active_state (some OpCode.PREPARE_TO_COMMIT) true
            fix_part_active).st.protocol_rows).map Prod.snd ∧
    _active_state (some OpCode.PREPARE_TO_COMMIT) false fix_part_active
        = ⟨{ fix_part_active with
              protocol_rows := [ ("t0", 'A') ],
              state := ParticipantStates.ABORT },
           [PartEvent.rm_commit_failed, PartEvent.wal_append "t0" 'A', PartEvent.wal_flush,
            PartEvent.send_response ResponseCode.ABORT_FROM_PARTICIPANT], none⟩ := by decide

end TransactionParticipantThread

namespace TransactionManagerThread

/-- Claim C9, confirmed: on COMMIT_FROM_COORDINATOR or
ROLLBACK_FROM_COORDINATOR for an unknown transaction id the dispatch loop
replies ACKNOWLEDGE_END and closes the channel, leaving the daemon state
(child_threads included) unchanged; for a known id it instead injects the
channel into that participant's waiting slot, again changing nothing else. -/
theorem claim_C9 (msg : ManagerMessage) (tid fresh : String) (m : ManagerSt)
    (h : msg = ManagerMessage.COMMIT_FROM_COORDINATOR tid ∨
         msg = ManagerMessage.ROLLBACK_FROM_COORDINATOR tid) :
    (tid ∉ m.child_threads →
      _active_state msg fresh m
        = (m, [ManagerEvent.send_response_ack, ManagerEvent.close_channel])) ∧
    (tid ∈ m.child_threads →
      _active_state msg fresh m = (m, [ManagerEvent.inject_socket tid])) := by
  rcases h with h | h <;> subst h <;>
    exact ⟨fun hn => by simp [_active_state, hn], fun hy => by simp [_active_state, hy]⟩

/-- Claim C9's witness: a daemon that knows no transaction acknowledges and
closes on a stale COMMIT_FROM_COORDINATOR, and one that knows "ta" injects
the channel on a ROLLBACK_FROM_COORDINATOR for "ta". -/
theorem claim_C9_witness :
    ( "ta" ∉ fix_mgr_empty.child_threads ∧
      _active_state (ManagerMessage.COMMIT_FROM_COORDINATOR "ta") "f" fix_mgr_empty
        = (fix_mgr_empty, [ManagerEvent.send_response_ack, ManagerEvent.close_channel])) ∧
    ( "ta" ∈ fix_mgr_known.child_threads ∧
      _active_state (ManagerMessage.ROLLBACK_FROM_COORDINATOR "ta") "f" fix_mgr_known
        = (fix_mgr_known, [ManagerEvent.inject_socket "ta"])) :=
  ⟨⟨by decide, (claim_C9 _ "ta" "f" fix_mgr_empty (Or.inl rfl)).1 (by decide)⟩,
   ⟨by decide, (claim_C9 _ "ta" "f" fix_mgr_known (Or.inr rfl)).2 (by decide)⟩⟩

end TransactionManagerThread
